import Mathlib

/-!
Shallow embedding of the `unitree_webrtc_connect` example programs
(`keyboard_control.py` and `cha_cha_slide.py`).

Both programs issue motion commands to a robot over an asynchronous
publish/subscribe data channel.  We model each observable action of the
programs (gateway requests, Move/Stop/trick dispatches, cooperative sleeps,
terminal raw-mode toggling, diagnostic prints) as an `Event`, and each
program run as the list of events it emits, parameterised by an environment
recording the outcomes of the fallible external operations (termios
availability, connect success, the motion-switcher response, tty detection,
and the sequence of key reads).
-/

namespace Unitree

/-- One observable action of a program run: a Channel Gateway request by
api id, a Move dispatch with (x, y, z) velocities, a StopMove dispatch, a
named-trick dispatch, a cooperative sleep, terminal raw-mode set/restore,
or a diagnostic message. -/
inductive Event where
  | connectE : Event
  | reqE : Int → Event
  | moveE : ℚ → ℚ → ℚ → Event
  | stopE : Event
  | trickE : String → Event
  | sleepE : ℚ → Event
  | rawSetE : Event
  | rawRestoreE : Event
  | diagE : Event
deriving DecidableEq

/-- Outcome of the motion-switcher mode query (api id 1001): either the
request itself raises a transport error, or a response arrives with a
status code, a flag recording whether the JSON-encoded `data.data` payload
is unparseable, and the reported mode name (when parseable). -/
inductive ModeOutcome where
  | queryRaises : ModeOutcome
  | resp : Int → Bool → Option String → ModeOutcome
deriving DecidableEq

/-- The mode-negotiation block shared by both programs (lines 131-142 of
`keyboard_control.py`, lines 108-120 of `cha_cha_slide.py`): after the
api-1001 query, if the status code is 0 the payload is JSON-parsed
(`json.loads` raises `ValueError` on a malformed payload, modelled as
`Except.error`); when parsing succeeds and the reported name differs from
"normal", an api-1002 switch request is issued followed by a 5-unit sleep.
A non-zero status code skips the whole block.  A raising query propagates. -/
def ensureMode : ModeOutcome → Except Unit (List Event)
  | .queryRaises => .error ()
  | .resp code malformed name =>
    if code = 0 then
      if malformed then .error ()
      else if name = some "normal" then .ok []
      else .ok [.reqE 1002, .sleepE 5]
    else .ok []

namespace KB

/-- Move speed along x (`SPEED_X = 0.4` in `keyboard_control.py`). -/
def SPEED_X : ℚ := 0.4

/-- Move speed along y (`SPEED_Y = 0.35`). -/
def SPEED_Y : ℚ := 0.35

/-- Yaw rate for the turn test (`TURN_Z = 1.2`). -/
def TURN_Z : ℚ := 1.2

/-- Duration of the turn test (`TURN_DURATION = 6.0`). -/
def TURN_DURATION : ℚ := 6.0

/-- Models `key.decode("utf-8", errors="ignore").lower()` on a single byte,
with characters represented by their code points: an ASCII byte decodes to
its (ASCII-lowercased) code point; a lone byte at or above 0x80 is invalid
UTF-8, so `errors="ignore"` yields the empty string, modelled as `none`. -/
def decodeLower (b : Nat) : Option Nat :=
  if b < 128 then some (if 65 ≤ b ∧ b ≤ 90 then b + 32 else b) else none

/-- The `on_key` readiness callback (lines 154-196): `none` models a read
that yields no byte (`read_key` returned `None`).  Returns whether the quit
event was set, together with the dispatches spawned for this key.  The
comparisons follow the source's binding order, with characters by code
point: `q` = 113, space = 32, `x` = 120, `p` = 112, `1` = 49, `2` = 50,
`t` = 116, `w` = 119, `s` = 115, `a` = 97, `d` = 100.  The `t` key spawns
`turn_test`, a compound Move-hold-Stop task, inlined here. -/
def on_key : Option Nat → Bool × List Event
  | none => (false, [])
  | some b =>
    let k := decodeLower b
    if k = some 113 then (true, [])
    else if k = some 32 then (false, [.trickE "FrontJump"])
    else if k = some 120 then (false, [.stopE])
    else if k = some 112 then (false, [.trickE "MoonWalk"])
    else if k = some 49 then (false, [.trickE "Dance1"])
    else if k = some 50 then (false, [.trickE "Dance2"])
    else if k = some 116 then (false, [.moveE 0 0 TURN_Z, .sleepE TURN_DURATION, .stopE])
    else if k = some 119 then (false, [.moveE SPEED_X 0 0])
    else if k = some 115 then (false, [.moveE (-SPEED_X) 0 0])
    else if k = some 97 then (false, [.moveE 0 SPEED_Y 0])
    else if k = some 100 then (false, [.moveE 0 (-SPEED_Y) 0])
    else (false, [])

/-- The teleop loop: one `on_key` invocation per readiness notification, in
order, until the quit event is set (then `await quit_event.wait()` returns,
the reader is removed, and no further key is processed). -/
def runTeleop : List (Option Nat) → List Event
  | [] => []
  | k :: rest =>
    (on_key k).2 ++ (if (on_key k).1 = true then [] else runTeleop rest)

/-- Outcomes of the external operations of one `keyboard_control.main` run:
termios importability, `conn.connect()` success, the motion-switcher
response, `sys.stdin.isatty()`, and the sequence of key reads delivered
before the loop exits. -/
structure Env where
  haveTermios : Bool
  connectOk : Bool
  mode : ModeOutcome
  isatty : Bool
  keys : List (Option Nat)

/-- The `finally` block of `main` (lines 200-207): `stdin_restore()` first
(a tcsetattr to the saved attributes, only when `_old_termios` was saved),
then, when `conn` is not `None`, a best-effort Stop dispatch whose failures
are swallowed.  No gateway-session release is performed. -/
def teardown (rawWasSet : Bool) (connSome : Bool) : List Event :=
  (if rawWasSet then [Event.rawRestoreE] else []) ++
    (if connSome then [Event.stopE] else [])

/-- The whole of `keyboard_control.main`: without termios it prints and
returns before acquiring anything; otherwise it connects, runs the mode
negotiation (whose `ValueError` on a malformed payload is caught by
`except ValueError` and falls through to the `finally`), attempts
`stdin_setup` (which succeeds exactly when stdin is a tty), runs the teleop
loop, and on every one of these exit paths runs the `finally` teardown. -/
def kbMain (env : Env) : List Event :=
  if env.haveTermios = false then []
  else if env.connectOk = false then Event.connectE :: teardown false true
  else
    match ensureMode env.mode with
    | .error _ => Event.connectE :: Event.reqE 1001 :: teardown false true
    | .ok mevs =>
      if env.isatty = false then
        Event.connectE :: Event.reqE 1001 ::
          (mevs ++ Event.diagE :: teardown false true)
      else
        Event.connectE :: Event.reqE 1001 ::
          (mevs ++ Event.rawSetE :: (runTeleop env.keys ++ teardown true true))

end KB

namespace KB

/-- Terminal/session state touched by the `finally` teardown: whether the
terminal is currently in cbreak mode, whether `_old_termios` holds saved
attributes, and whether `conn` is not `None`. -/
structure SysState where
  termRaw : Bool
  savedAttrs : Bool
  connSome : Bool
deriving DecidableEq

/-- Models `stdin_restore` (lines 49-53) as a state transformer: when saved
attributes exist, `tcsetattr` reinstates them (leaving cbreak mode); the
saved attributes themselves are never cleared. -/
def stdin_restoreS (s : SysState) : SysState × List Event :=
  if s.savedAttrs = true then
    (SysState.mk false s.savedAttrs s.connSome, [Event.rawRestoreE])
  else (s, [])

/-- The `finally` teardown (lines 200-207) as a state transformer:
`stdin_restore()` first, then a best-effort Stop dispatch when `conn` is
not `None` (its failures are swallowed, so the state is unaffected). -/
def teardownS (s : SysState) : SysState × List Event :=
  ((stdin_restoreS s).1,
    (stdin_restoreS s).2 ++ (if s.connSome = true then [Event.stopE] else []))

/-- The decoded, lowercased characters bound by `on_key`, by code point:
q, space, x, p, 1, 2, t, w, s, a, d. -/
def bindingKeys : List Nat := [113, 32, 120, 112, 49, 50, 116, 119, 115, 97, 100]

/-- Whether a raw input byte decodes (lowercased) to a bound character. -/
def boundKey (b : Nat) : Bool :=
  match decodeLower b with
  | some c => decide (c ∈ bindingKeys)
  | none => false

end KB

namespace Dance

/-- Lateral slide speed (`STEP_Y = 0.35` in `cha_cha_slide.py`). -/
def STEP_Y : ℚ := 0.35

/-- Forward/back speed (`STEP_X = 0.25`). -/
def STEP_X : ℚ := 0.25

/-- Small stomp step (`STOMP_Y = 0.2`). -/
def STOMP_Y : ℚ := 0.2

/-- Seconds per move (`BEAT = 0.8`). -/
def BEAT : ℚ := 0.8

/-- Pause between major steps (`PAUSE = 1.0`). -/
def PAUSE : ℚ := 1.0

/-- Yaw rate for the full turn (`TURN_Z = 0.5`). -/
def TURN_Z : ℚ := 0.5

/-- Hold time for one full spin (`TURN_360_DURATION = 14.0`). -/
def TURN_360_DURATION : ℚ := 14.0

/-- Models `run_cha_cha_slide` (lines 43-96), straight-line, as its event trace:
five velocity-mode steps (slide left, take it back, right stomp, left
stomp, turn) each ending in a Stop, and two trigger-mode steps (Bound,
WiggleHips) that get only a settle sleep. -/
def run_cha_cha_slide : List Event :=
  [Event.moveE 0 STEP_Y 0, Event.sleepE (BEAT * 2), Event.stopE, Event.sleepE PAUSE,
   Event.moveE (-STEP_X) 0 0, Event.sleepE (BEAT * 2), Event.stopE, Event.sleepE PAUSE,
   Event.trickE "Bound", Event.sleepE 1.5, Event.sleepE PAUSE,
   Event.moveE 0 (-STOMP_Y) 0, Event.sleepE BEAT, Event.stopE, Event.sleepE PAUSE,
   Event.moveE 0 STOMP_Y 0, Event.sleepE BEAT, Event.stopE, Event.sleepE PAUSE,
   Event.trickE "WiggleHips", Event.sleepE 2.0, Event.sleepE PAUSE,
   Event.moveE 0 0 TURN_Z, Event.sleepE TURN_360_DURATION, Event.stopE, Event.sleepE PAUSE]

/-- The choreography portion of `cha_cha_slide.main` (lines 126-130): the
routine replayed 4 times, followed by one final Stop. -/
def danceLoop : List Event :=
  (List.replicate 4 run_cha_cha_slide).flatten ++ [Event.stopE]

end Dance

/-- A step-action event: a Move dispatch (velocity-mode step) or a named
trick (trigger-mode step).  Stop dispatches and sleeps are not actions. -/
def isActionEv : Event → Bool
  | .moveE _ _ _ => true
  | .trickE _ => true
  | _ => false

/-- Whether an event is a Move dispatch. -/
def isMoveEv : Event → Bool
  | .moveE _ _ _ => true
  | _ => false

/-- Whether an event is a Stop dispatch. -/
def isStopEv : Event → Bool
  | .stopE => true
  | _ => false

/-- Scans a trace and checks, for every action event that is followed by a
later action, the number of Stop dispatches strictly between them: exactly
one after a Move (velocity-mode) action, none after a trick (trigger-mode)
action.  `pending` carries whether the action being tracked is a Move, and
`cnt` the Stops seen since it. -/
def checkSteps : Option Bool → Nat → List Event → Bool
  | _, _, [] => true
  | pending, cnt, e :: rest =>
    if isActionEv e then
      (match pending with
       | none => true
       | some mv => if mv then cnt == 1 else cnt == 0)
        && checkSteps (some (isMoveEv e)) 0 rest
    else
      checkSteps pending (cnt + (if isStopEv e then 1 else 0)) rest

/-- Checks that every trick dispatch in a trace is immediately followed by
a sleep (the settle delay of a trigger-mode step). -/
def trickSettle : List Event → Bool
  | [] => true
  | .trickE _ :: rest =>
    (match rest with
     | .sleepE _ :: _ => true
     | _ => false) && trickSettle rest
  | _ :: rest => trickSettle rest

/-- Index of the first occurrence of an event in a trace. -/
def firstIdx (e : Event) : List Event → Option Nat
  | [] => none
  | x :: rest => if x = e then some 0 else (firstIdx e rest).map (· + 1)

/-- Environment in which every external operation succeeds, the robot
already reports mode "normal", and the operator immediately presses `q`. -/
def envQuit : KB.Env :=
  KB.Env.mk true true (ModeOutcome.resp 0 false (some "normal")) true [some 113]

/-- Environment in which the mode query returns status 0 with an
unparseable payload, while everything else would succeed and a `w`
keypress is waiting. -/
def envMalformed : KB.Env :=
  KB.Env.mk true true (ModeOutcome.resp 0 true none) true [some 119]

/-- Environment in which stdin is not a tty, so `stdin_setup` fails, while
connect and mode negotiation succeed. -/
def envNoTty : KB.Env :=
  KB.Env.mk true true (ModeOutcome.resp 0 false (some "normal")) false []

/-! Helper lemmas shared by the claim theorems. -/

/-- The mode-negotiation block emits either nothing or exactly the switch
request followed by the 5-unit settle sleep. -/
theorem ensureMode_ok_shape (o : ModeOutcome) (l : List Event)
    (h : ensureMode o = Except.ok l) :
    l = [] ∨ l = [Event.reqE 1002, Event.sleepE 5] := by
  cases o with
  | queryRaises => simp [ensureMode] at h
  | resp code malformed name =>
    simp only [ensureMode] at h
    split_ifs at h <;> simp_all

namespace KB

/-- Decoding the byte for `q` sets the quit event and dispatches nothing. -/
theorem on_key_quit : on_key (some 113) = (true, []) := by decide

set_option maxHeartbeats 1600000 in
/-- No `on_key` invocation ever touches the terminal raw-mode state. -/
theorem on_key_no_term (k : Option Nat) :
    Event.rawSetE ∉ (on_key k).2 ∧ Event.rawRestoreE ∉ (on_key k).2 := by
  cases k with
  | none => simp [on_key]
  | some b =>
    simp only [on_key]
    cases hd : decodeLower b with
    | none => simp
    | some c => split_ifs <;> simp

/-- The teleop loop never touches the terminal raw-mode state. -/
theorem runTeleop_no_term (keys : List (Option Nat)) :
    Event.rawSetE ∉ runTeleop keys ∧ Event.rawRestoreE ∉ runTeleop keys := by
  induction keys with
  | nil => simp [runTeleop]
  | cons k rest ih =>
    have h := on_key_no_term k
    by_cases hc : (on_key k).1 = true <;>
      simp [runTeleop, hc, h.1, h.2, ih.1, ih.2]

/-- The teleop loop emits no raw-mode restore event. -/
theorem runTeleop_countP_restore (keys : List (Option Nat)) :
    (runTeleop keys).countP (fun e => decide (e = Event.rawRestoreE)) = 0 := by
  rw [List.countP_eq_zero]
  intro a ha
  simp only [decide_eq_true_eq]
  rintro rfl
  exact (runTeleop_no_term keys).2 ha

end KB

/-! The claims. -/

/-- C5: for every input byte sequence containing the quit key (`q`, byte
113) anywhere, the teleop loop processes no keys after the quit key: the
event trace of the run equals the trace of the sequence truncated right
after the quit key, whatever keys follow. -/
theorem c5_quit_priority (l1 l2 : List (Option Nat)) :
    KB.runTeleop (l1 ++ some 113 :: l2) = KB.runTeleop (l1 ++ [some 113]) := by
  induction l1 with
  | nil => simp [KB.runTeleop, KB.on_key_quit]
  | cons k rest ih =>
    simp only [List.cons_append, KB.runTeleop, List.append_eq]
    rw [ih]

/-- C8: the key sequence `w`, `w`, `x`, `q` (bytes 119, 119, 120, 113)
dispatches exactly Move(SPEED_X, 0, 0) twice then Stop, then the loop
terminates; appending further keys after `q` changes nothing; SPEED_X is
the positive forward velocity 0.4. -/
theorem c8_wwxq_trace :
    KB.runTeleop [some 119, some 119, some 120, some 113] =
      [Event.moveE KB.SPEED_X 0 0, Event.moveE KB.SPEED_X 0 0, Event.stopE] ∧
    KB.runTeleop [some 119, some 119, some 120, some 113, some 115, some 32] =
      [Event.moveE KB.SPEED_X 0 0, Event.moveE KB.SPEED_X 0 0, Event.stopE] ∧
    0 < KB.SPEED_X ∧ KB.SPEED_X = 0.4 := by
  refine ⟨rfl, rfl, ?_, ?_⟩ <;> norm_num [KB.SPEED_X]

/-- C7: when the mode query succeeds (status code 0) and the payload
parses, the Mode Negotiator issues no switch request if the reported mode
already equals "normal", and otherwise issues exactly one switch request
(api id 1002) followed by the fixed 5-unit settle sleep. -/
theorem c7_mode_negotiator (code : Int) (name : Option String) (h : code = 0) :
    (name = some "normal" →
      ensureMode (ModeOutcome.resp code false name) = Except.ok []) ∧
    (name ≠ some "normal" →
      ensureMode (ModeOutcome.resp code false name) =
        Except.ok [Event.reqE 1002, Event.sleepE 5]) := by
  subst h
  constructor <;> intro hn <;> simp [ensureMode, hn]

/-- Witness for C7 at status code 0: mode "normal" is a no-op, and a
differing reported mode triggers the switch request plus settle sleep. -/
theorem c7_mode_negotiator_witness :
    ensureMode (ModeOutcome.resp 0 false (some "normal")) = Except.ok [] ∧
    ensureMode (ModeOutcome.resp 0 false (some "mcf")) =
      Except.ok [Event.reqE 1002, Event.sleepE 5] :=
  ⟨(c7_mode_negotiator 0 (some "normal") rfl).1 rfl,
   (c7_mode_negotiator 0 (some "mcf") rfl).2 (by simp)⟩

/-- C9: in the full four-cycle cha-cha-slide trace, every velocity-mode
(Move) step is followed by exactly one Stop dispatch before the next
step's action, trigger-mode (trick) steps are followed by no Stop before
the next action, and every trick dispatch is immediately followed by its
settle sleep. -/
theorem c9_velocity_stop :
    checkSteps none 0 Dance.danceLoop = true ∧
    trickSettle Dance.danceLoop = true := by
  constructor <;> rfl

/-- C10: an input byte whose decoded, lowercased character is outside the
binding set dispatches nothing and leaves the quit event unset, and so
does a readiness notification whose non-blocking read yields no byte. -/
theorem c10_unbound_noop (b : Nat) (h : KB.boundKey b = false) :
    KB.on_key (some b) = (false, []) ∧ KB.on_key none = (false, []) := by
  refine ⟨?_, rfl⟩
  simp only [KB.on_key]
  cases hd : KB.decodeLower b with
  | none => simp
  | some c =>
    simp only [KB.boundKey, hd, decide_eq_false_iff_not, KB.bindingKeys,
      List.mem_cons, List.not_mem_nil, or_false] at h
    push_neg at h
    obtain ⟨h1, h2, h3, h4, h5, h6, h7, h8, h9, h10, h11⟩ := h
    simp [h1, h2, h3, h4, h5, h6, h7, h8, h9, h10, h11]

/-- Witness for C10: byte 122 (`z`) is unbound and is a no-op, as is an
empty read. -/
theorem c10_unbound_noop_witness :
    KB.boundKey 122 = false ∧
    (KB.on_key (some 122) = (false, []) ∧ KB.on_key none = (false, [])) :=
  ⟨by decide, c10_unbound_noop 122 (by decide)⟩

/-- C1 counterexample: on the normal-return exit path with everything
acquired, the teardown trace restores the terminal at index 3 and
dispatches its only Stop at index 4 — the Stop is not dispatched before
the raw-mode restoration, and no session-release action exists. -/
theorem c1_teardown_order_cex :
    KB.kbMain envQuit =
      [Event.connectE, Event.reqE 1001, Event.rawSetE,
        Event.rawRestoreE, Event.stopE] ∧
    firstIdx Event.rawRestoreE (KB.kbMain envQuit) = some 3 ∧
    firstIdx Event.stopE (KB.kbMain envQuit) = some 4 ∧
    (KB.kbMain envQuit).countP (fun e => decide (e = Event.stopE)) = 1 := by
  refine ⟨rfl, ?_, ?_, ?_⟩ <;> decide

/-- C1 amended: on every exit path of a run that got past the termios
check, the trace ends with the teardown, whose order is terminal raw-mode
restoration first (exactly when raw mode was set) and then the best-effort
Stop dispatch; no session-release action is performed. -/
theorem c1_teardown_order (env : KB.Env) (h : env.haveTermios = true) :
    ∃ p raw, KB.kbMain env = p ++ KB.teardown raw true ∧
      KB.teardown raw true =
        (if raw = true then [Event.rawRestoreE, Event.stopE]
          else [Event.stopE]) ∧
      (raw = true ↔ Event.rawSetE ∈ p) := by
  by_cases h2 : env.connectOk = false
  · exact ⟨[Event.connectE], false, by simp [KB.kbMain, h, h2], rfl, by simp⟩
  · cases hm : ensureMode env.mode with
    | error e =>
      exact ⟨[Event.connectE, Event.reqE 1001], false,
        by simp [KB.kbMain, h, h2, hm], rfl, by simp⟩
    | ok mevs =>
      by_cases h3 : env.isatty = false
      · refine ⟨Event.connectE :: Event.reqE 1001 :: (mevs ++ [Event.diagE]),
          false, by simp [KB.kbMain, h, h2, h3, hm], rfl, ?_⟩
        rcases ensureMode_ok_shape env.mode mevs hm with h4 | h4 <;>
          subst h4 <;> simp
      · refine ⟨Event.connectE :: Event.reqE 1001 ::
          (mevs ++ Event.rawSetE :: KB.runTeleop env.keys), true,
          by simp [KB.kbMain, h, h2, h3, hm], rfl, by simp⟩

/-- Witness for C1 amended, at the all-success quit-key environment. -/
theorem c1_teardown_order_witness :
    envQuit.haveTermios = true ∧
    (∃ p raw, KB.kbMain envQuit = p ++ KB.teardown raw true ∧
      KB.teardown raw true =
        (if raw = true then [Event.rawRestoreE, Event.stopE]
          else [Event.stopE]) ∧
      (raw = true ↔ Event.rawSetE ∈ p)) :=
  ⟨rfl, c1_teardown_order envQuit rfl⟩

/-- C2 counterexample: a status-0 response with an unparseable payload
makes the mode negotiation raise (the `json.loads` ValueError) instead of
returning success, and the run proceeds straight to teardown: raw mode is
never set and the waiting `w` keypress is never dispatched, so execution
of the chosen control mode does not continue. -/
theorem c2_mode_failure_cex :
    ensureMode (ModeOutcome.resp 0 true none) = Except.error () ∧
    KB.kbMain envMalformed = [Event.connectE, Event.reqE 1001, Event.stopE] ∧
    Event.rawSetE ∉ KB.kbMain envMalformed ∧
    Event.moveE KB.SPEED_X 0 0 ∉ KB.kbMain envMalformed := by
  refine ⟨rfl, rfl, ?_, ?_⟩ <;> decide

/-- C2 amended: a non-zero status code is a soft failure — the negotiator
issues no further request, no retries, and execution continues — but a
status-0 response with an unparseable payload raises a ValueError that
aborts the run of the chosen control mode. -/
theorem c2_mode_failure (code : Int) (malformed : Bool) (name : Option String) :
    (code ≠ 0 →
      ensureMode (ModeOutcome.resp code malformed name) = Except.ok []) ∧
    (code = 0 → malformed = true →
      ensureMode (ModeOutcome.resp code malformed name) = Except.error ()) := by
  constructor
  · intro hc
    simp [ensureMode, hc]
  · rintro rfl rfl
    simp [ensureMode]

/-- Witness for C2 amended: status 1 continues with no dispatch; status 0
with a malformed payload raises. -/
theorem c2_mode_failure_witness :
    ensureMode (ModeOutcome.resp 1 false none) = Except.ok [] ∧
    ensureMode (ModeOutcome.resp 0 true (some "normal")) = Except.error () :=
  ⟨(c2_mode_failure 1 false none).1 (by decide),
    (c2_mode_failure 0 true (some "normal")).2 rfl rfl⟩

/-- C3 counterexample: when raw-mode acquisition fails the run still
dispatches a command to the Channel Gateway — the teardown's best-effort
Stop — refuting "no dispatch occurs, including during teardown". -/
theorem c3_rawfail_cex :
    KB.kbMain envNoTty =
      [Event.connectE, Event.reqE 1001, Event.diagE, Event.stopE] ∧
    Event.stopE ∈ KB.kbMain envNoTty := by
  refine ⟨rfl, ?_⟩
  decide

/-- C3 amended: if raw-mode acquisition fails, the run prints a diagnostic
and terminates; the teleop loop never starts and issues no Move or trick
command, but the teardown still dispatches its best-effort Stop (and the
mode-negotiation gateway requests happened earlier). -/
theorem c3_rawfail (env : KB.Env) (mevs : List Event)
    (h1 : env.haveTermios = true) (h2 : env.connectOk = true)
    (h3 : env.isatty = false) (hm : ensureMode env.mode = Except.ok mevs) :
    KB.kbMain env =
      Event.connectE :: Event.reqE 1001 ::
        (mevs ++ [Event.diagE, Event.stopE]) ∧
    (∀ x y z : ℚ, Event.moveE x y z ∉ KB.kbMain env) ∧
    (∀ s : String, Event.trickE s ∉ KB.kbMain env) ∧
    Event.rawSetE ∉ KB.kbMain env ∧
    Event.stopE ∈ KB.kbMain env := by
  have h2' : ¬(env.connectOk = false) := by simp [h2]
  have htr : KB.kbMain env =
      Event.connectE :: Event.reqE 1001 ::
        (mevs ++ [Event.diagE, Event.stopE]) := by
    simp [KB.kbMain, h1, h2', h3, hm, KB.teardown]
  rcases ensureMode_ok_shape env.mode mevs hm with h4 | h4 <;>
    subst h4 <;> rw [htr] <;> refine ⟨rfl, ?_, ?_, ?_, ?_⟩ <;> simp

/-- Witness for C3 amended, at the concrete no-tty environment. -/
theorem c3_rawfail_witness :
    envNoTty.haveTermios = true ∧ envNoTty.connectOk = true ∧
    envNoTty.isatty = false ∧ ensureMode envNoTty.mode = Except.ok [] ∧
    (KB.kbMain envNoTty =
      Event.connectE :: Event.reqE 1001 ::
        ([] ++ [Event.diagE, Event.stopE]) ∧
    (∀ x y z : ℚ, Event.moveE x y z ∉ KB.kbMain envNoTty) ∧
    (∀ s : String, Event.trickE s ∉ KB.kbMain envNoTty) ∧
    Event.rawSetE ∉ KB.kbMain envNoTty ∧
    Event.stopE ∈ KB.kbMain envNoTty) :=
  ⟨rfl, rfl, rfl, rfl, c3_rawfail envNoTty [] rfl rfl rfl rfl⟩

/-- C4 counterexample: invoking the teardown twice from the fully-acquired
state leaves the same final state as once, but across the two invocations
two Stop commands are dispatched, not at most one. -/
theorem c4_teardown_idem_cex :
    (KB.teardownS (KB.teardownS (KB.SysState.mk true true true)).1).1 =
      (KB.teardownS (KB.SysState.mk true true true)).1 ∧
    ((KB.teardownS (KB.SysState.mk true true true)).2 ++
        (KB.teardownS (KB.teardownS (KB.SysState.mk true true true)).1).2).countP
      (fun e => decide (e = Event.stopE)) = 2 := by
  refine ⟨rfl, ?_⟩
  decide

/-- C4 amended: the teardown is idempotent on the terminal/session state —
a second invocation yields exactly the final state of the first — but it
is not a no-op in dispatches: the second invocation repeats the events of
the first, in particular one more best-effort Stop whenever a connection
exists (the saved terminal attributes are never cleared, so the restore
call is also re-issued). -/
theorem c4_teardown_idem (s : KB.SysState) :
    (KB.teardownS (KB.teardownS s).1).1 = (KB.teardownS s).1 ∧
    (KB.teardownS (KB.teardownS s).1).2 = (KB.teardownS s).2 := by
  rcases s with ⟨a, b, c⟩
  cases a <;> cases b <;> cases c <;> exact ⟨rfl, rfl⟩

/-- C6: in every run of `keyboard_control.main` — across all outcomes of
the termios check, connect, mode negotiation, terminal setup, key input,
and every exit path — the terminal configuration is restored exactly once
if raw mode was set, and never otherwise. -/
theorem c6_raw_restore_once (env : KB.Env) :
    (KB.kbMain env).countP (fun e => decide (e = Event.rawRestoreE)) =
      (if Event.rawSetE ∈ KB.kbMain env then 1 else 0) := by
  by_cases h1 : env.haveTermios = false
  · simp [KB.kbMain, h1]
  · by_cases h2 : env.connectOk = false
    · simp [KB.kbMain, h1, h2, KB.teardown]
    · cases hm : ensureMode env.mode with
      | error e => simp [KB.kbMain, h1, h2, hm, KB.teardown]
      | ok mevs =>
        rcases ensureMode_ok_shape env.mode mevs hm with h4 | h4 <;> subst h4 <;>
          by_cases h3 : env.isatty = false <;>
            simp [KB.kbMain, h1, h2, h3, hm, KB.teardown, List.countP_cons,
              List.countP_append, KB.runTeleop_countP_restore,
              (KB.runTeleop_no_term env.keys).1]

end Unitree
